import Mathlib

/-!
Shallow embedding of the live-reloading shader renderer (`src/main.rs`):
the pipeline builder with its fallback protocol (`AppState::create_pipeline`),
the uniform-resource manager (`AppState::create_bindings`), the shader-watcher
polling loop (`AppState::spawn_watcher_thread`), and the per-frame state
machine (`AppState::resize` / `update` / `render`, `App::window_event`).

Machine integers that matter here are sizes and offsets; they are modelled as
`Nat` (none of the arithmetic in the program can overflow `u64`/`u32` ranges,
and the claims are about exact equalities of small values).  Timestamps
(`SystemTime`) are modelled as nanoseconds-since-epoch `Nat` with the UNIX
epoch at `0`; `Instant`s likewise as abstract `Nat` time points.
-/

namespace Shadertoy

/-- Severity of a `tracing` log call in the source. -/
inductive LogLevel
  | trace
  | debug
  | info
  | warn
  | error
deriving DecidableEq, Repr

/-- One emitted log line: level plus (static part of) the message. -/
structure LogMsg where
  level : LogLevel
  msg : String
deriving DecidableEq, Repr

/-- The compiled-in vertex shader (`VERTEX_SHADER` in `src/main.rs`). -/
def VERTEX_SHADER : String :=
  "
@vertex
fn main(@builtin(vertex_index) vertex_index: u32) -> @builtin(position) vec4<f32> \x7b
    let vert = array(
        vec2<f32>(0.0, 0.0),
        vec2<f32>(0.0, 1.0),
        vec2<f32>(1.0, 0.0),
    );
    return vec4<f32>(vert[vertex_index] * 4 - 1, 0.0, 1.0);
\x7d
"

/-- The compiled-in fallback fragment shader (`INITIAL_FRAGMENT_SHADER`). -/
def INITIAL_FRAGMENT_SHADER : String :=
  "
@fragment
fn main(@builtin(position) p: vec4<f32>) -> @location(0) vec4<f32> \x7b
    return vec4(1.0, 0.0, 1.0, 1.0);
\x7d
"

/-- A `wgpu::ShaderModule`: the source text it was compiled from plus a
    compilation id distinguishing physically distinct compilations.
    `Clone` on a module preserves both fields (a clone is the same module). -/
structure ShaderModule where
  source : String
  id : Nat
deriving DecidableEq, Repr

/-- The slice of the `wgpu::Device` that the claims observe: the list of
    source texts passed to `create_shader_module`, in call order (also used
    to hand out fresh compilation ids). -/
structure Device where
  compiled : List String
deriving DecidableEq, Repr

/-- `device.create_shader_module`: returns the new module and the device
    with the compilation recorded. -/
def createShaderModule (d : Device) (src : String) : ShaderModule × Device :=
  ({ source := src, id := d.compiled.length }, { compiled := d.compiled ++ [src] })

/-- A linked `wgpu::RenderPipeline`: the two shader modules it was linked
    against (fixed-function state is constant in the source and omitted). -/
structure RenderPipeline where
  vertexModule : ShaderModule
  fragmentModule : ShaderModule
deriving DecidableEq, Repr

/-- Result of one `AppState::create_pipeline` call: the pipeline, the device
    after the compilations the call performed, and the log lines emitted. -/
structure PipelineResult where
  pipeline : RenderPipeline
  device : Device
  logs : List LogMsg
deriving Repr

/-- `AppState::create_pipeline` (src/main.rs lines 206-272).

    `fragmentSource` is the optional candidate source (`Option<&str>`);
    `captured` is the verdict of the validation error scope popped after the
    compilation attempt (`true` iff the backend captured a validation error):
    it is an input of the backend, not computed here.

    Control flow of the source: compile the vertex shader; build the pipeline
    from the candidate module when a candidate is present (logging a debug
    line) or from a clone of the pre-compiled fallback module (logging a
    warning) when it is absent; pop the error scope; if an error was
    captured, log it and rebuild the pipeline from a clone of the fallback
    module (the `fallback` closure logs its warning again).  Cloning the
    fallback module is not a compilation: the device records no new source
    for it. -/
def create_pipeline (d : Device) (fallback_shader : ShaderModule)
    (fragmentSource : Option String) (captured : Bool) : PipelineResult :=
  let v := createShaderModule d VERTEX_SHADER
  let vertex_shader := v.1
  let d1 := v.2
  let fallbackLog : LogMsg := ⟨LogLevel.warn, "Using initial fragment shader"⟩
  match fragmentSource with
  | none =>
      let t : RenderPipeline :=
        { vertexModule := vertex_shader, fragmentModule := fallback_shader }
      if captured then
        { pipeline := { vertexModule := vertex_shader, fragmentModule := fallback_shader }
          device := d1
          logs := [fallbackLog,
                   ⟨LogLevel.error, "Fragment shader module creation failed"⟩,
                   fallbackLog] }
      else
        { pipeline := t, device := d1, logs := [fallbackLog] }
  | some src =>
      let m := createShaderModule d1 src
      let t : RenderPipeline :=
        { vertexModule := vertex_shader, fragmentModule := m.1 }
      if captured then
        { pipeline := { vertexModule := vertex_shader, fragmentModule := fallback_shader }
          device := m.2
          logs := [⟨LogLevel.debug, "Fragment shader module created successfully"⟩,
                   ⟨LogLevel.error, "Fragment shader module creation failed"⟩,
                   fallbackLog] }
      else
        { pipeline := t, device := m.2
          logs := [⟨LogLevel.debug, "Fragment shader module created successfully"⟩] }

/-- The fallback-module compilation performed once in `AppState::new`
    (src/main.rs lines 107-110). -/
def startupFallback (d : Device) : ShaderModule × Device :=
  createShaderModule d INITIAL_FRAGMENT_SHADER

/-- Fold a sequence of `create_pipeline` calls (candidate, captured verdict)
    over the device, as the running program does across reloads. -/
def runPipelineCalls (fallback_shader : ShaderModule) :
    Device → List (Option String × Bool) → Device
  | d, [] => d
  | d, c :: cs =>
      runPipelineCalls fallback_shader
        (create_pipeline d fallback_shader c.1 c.2).device cs

/-!
## Shader watcher (`AppState::spawn_watcher_thread`, src/main.rs lines 279-330)

After the file is opened, the thread keeps a `String` accumulation buffer
`buf`, a last-seen timestamp `last` initialised to `SystemTime::UNIX_EPOCH`,
and the open file handle `f` with its cursor position.  Each loop iteration
is driven by what the OS reports on that poll.
-/

/-- Outcome of `f.metadata()?.modified()` on one poll.  The `?` operator on
    `f.metadata()` makes an error of the metadata call itself return from the
    thread closure; only the inner `modified()` accessor's error is matched
    and handled with a log and a 1000 ms sleep. -/
inductive MetaResult
  | metaErr
  | modifiedErr
  | modified (t : Nat)
deriving DecidableEq, Repr

/-- Outcome of `f.read_to_string(&mut buf)` on one poll.  On success the
    read appends everything from the handle's cursor to end-of-file and
    leaves the cursor at end-of-file.  On failure (`err consumed keep`) the
    underlying reads consumed `consumed` characters past the cursor before
    the error; `keep = true` models an I/O error after appending valid UTF-8
    data (std keeps the appended part in `buf`), `keep = false` models an
    invalid-UTF-8 error (std restores `buf` to its previous contents; for a
    file read to end-of-file first, `consumed` is then the whole rest). -/
inductive ReadResult
  | ok
  | err (consumed : Nat) (keep : Bool)
deriving DecidableEq, Repr

/-- The environment of one poll iteration: the metadata verdict, the file's
    content at read time, the read outcome, whether the channel's receiver
    still exists (`tx.send` succeeds iff it does), and whether `f.rewind()`
    succeeds (its error is propagated by `?`). -/
structure Poll where
  meta : MetaResult
  content : String
  read : ReadResult
  connected : Bool
  rewindOk : Bool
deriving DecidableEq, Repr

/-- Watcher-thread state between polls. -/
structure WatcherState where
  last : Nat
  buf : String
  pos : Nat
deriving DecidableEq, Repr

/-- State right after `File::open` succeeds: `last = SystemTime::UNIX_EPOCH`
    (epoch is 0 in this model), empty buffer, cursor at the start. -/
def watcherStart : WatcherState :=
  { last := 0, buf := "", pos := 0 }

/-- What one loop iteration did. -/
structure StepResult where
  state : WatcherState
  /-- The value actually enqueued on the channel this poll, if any. -/
  sent : Option String
  /-- Whether `tx.send` was reached at all this poll. -/
  sendAttempted : Bool
  /-- Whether the thread closure returned (a `?` operator fired). -/
  exited : Bool
  logs : List LogMsg
  /-- Milliseconds slept before the next poll. -/
  sleepMs : Nat
deriving DecidableEq, Repr

/-- The characters a successful `read_to_string` appends: from the cursor to
    end-of-file. -/
def readRest (content : String) (pos : Nat) : String :=
  (content.toList.drop pos).asString

/-- The characters a failing read consumed before the error. -/
def readChunk (content : String) (pos consumed : Nat) : String :=
  ((content.toList.drop pos).take consumed).asString

/-- One iteration of the watcher polling loop (src/main.rs lines 297-329). -/
def watcherStep (s : WatcherState) (p : Poll) : StepResult :=
  match p.meta with
  | MetaResult.metaErr =>
      -- `f.metadata()?` propagates the error: the closure returns.
      { state := s, sent := none, sendAttempted := false, exited := true
        logs := [], sleepMs := 0 }
  | MetaResult.modifiedErr =>
      -- `Err` arm of the `modified()` match: log, sleep 1000 ms, `continue`
      -- (the 500 ms sleep at the bottom of the loop is skipped).
      { state := s, sent := none, sendAttempted := false, exited := false
        logs := [⟨LogLevel.error, "Failed to get file metadata"⟩], sleepMs := 1000 }
  | MetaResult.modified t =>
      if s.last < t then
        match p.read with
        | ReadResult.err consumed keep =>
            -- read failure: log only; `last`, the cursor and (for the
            -- invalid-UTF-8 case) `buf` are left as the failed read left them.
            { state := { s with
                pos := min (s.pos + consumed) p.content.length
                buf := if keep then s.buf ++ readChunk p.content s.pos consumed else s.buf }
              sent := none, sendAttempted := false, exited := false
              logs := [⟨LogLevel.error, "Failed to read shader file"⟩], sleepMs := 500 }
        | ReadResult.ok =>
            let buf1 := s.buf ++ readRest p.content s.pos
            if p.connected then
              -- send succeeds: advance `last`, rewind (`?`), clear `buf`.
              if p.rewindOk then
                { state := { last := t, buf := "", pos := 0 }
                  sent := some buf1, sendAttempted := true, exited := false
                  logs := [⟨LogLevel.info, "Shader file modified"⟩,
                           ⟨LogLevel.trace, "Shader source sent to main thread"⟩]
                  sleepMs := 500 }
              else
                -- `f.rewind()?` fires after `last = modified`: thread exits.
                { state := { last := t, buf := buf1, pos := p.content.length }
                  sent := some buf1, sendAttempted := true, exited := true
                  logs := [⟨LogLevel.info, "Shader file modified"⟩,
                           ⟨LogLevel.trace, "Shader source sent to main thread"⟩]
                  sleepMs := 0 }
            else
              -- receiver gone: log a warning; no rewind, no clear, `last` kept.
              { state := { s with buf := buf1, pos := p.content.length }
                sent := none, sendAttempted := true, exited := false
                logs := [⟨LogLevel.info, "Shader file modified"⟩,
                         ⟨LogLevel.warn, "Failed to send shader source, channel disconnected"⟩]
                sleepMs := 500 }
      else
        { state := s, sent := none, sendAttempted := false, exited := false
          logs := [], sleepMs := 500 }

/-- Run the watcher over a list of polls; collects the messages actually
    enqueued in order and whether the thread exited during the run. -/
def runWatcher (s : WatcherState) : List Poll → WatcherState × List String × Bool
  | [] => (s, [], false)
  | p :: ps =>
      let r := watcherStep s p
      if r.exited then (r.state, r.sent.toList, true)
      else
        let rest := runWatcher r.state ps
        (rest.1, r.sent.toList ++ rest.2.1, rest.2.2)

/-!
## Uniform resources and the per-frame state machine
-/

/-- `wgpu::BufferUsages` flags used by the uniform buffer. -/
inductive BufferUsage
  | uniform
  | copyDst
deriving DecidableEq, Repr

/-- The uniform buffer as described to the device (`BufferDescriptor`). -/
structure UniformBuffer where
  size : Nat
  usage : List BufferUsage
  mappedAtCreation : Bool
deriving DecidableEq, Repr

/-- One `BindGroupLayoutEntry`: a plain fragment-stage buffer binding. -/
structure LayoutEntry where
  binding : Nat
  fragmentVisible : Bool
  hasDynamicOffset : Bool
deriving DecidableEq, Repr

/-- One `BindGroupEntry`: binding index wired to a byte offset into the
    uniform buffer (`size: None` in the source). -/
structure BindGroupEntryM where
  binding : Nat
  offset : Nat
deriving DecidableEq, Repr

/-- What `AppState::create_bindings` builds. -/
structure Bindings where
  buffer : UniformBuffer
  layoutEntries : List LayoutEntry
  groupEntries : List BindGroupEntryM
deriving DecidableEq, Repr

/-- `AppState::create_bindings` (src/main.rs lines 144-203). -/
def create_bindings (alignment : Nat) : Bindings :=
  { buffer :=
      { size := alignment * 2
        usage := [BufferUsage.uniform, BufferUsage.copyDst]
        mappedAtCreation := false }
    layoutEntries :=
      [ { binding := 0, fragmentVisible := true, hasDynamicOffset := false },
        { binding := 1, fragmentVisible := true, hasDynamicOffset := false } ]
    groupEntries :=
      [ { binding := 0, offset := 0 },
        { binding := 1, offset := alignment } ] }

/-- The data handed to a `queue.write_buffer` call: elapsed seconds from a
    `f32`, or a resolution pair from a `[f32; 2]`.  Dimensions are kept as
    the exact `u32`/duration values the floats were cast from (the claims
    only inspect exact small values, where the cast is lossless). -/
inductive Payload
  | timeSecs (elapsed : Nat)
  | resolution (width height : Nat)
deriving DecidableEq, Repr

/-- Externally visible GPU/window actions of the frame loop. -/
inductive Effect
  | writeBuffer (offset : Nat) (numBytes : Nat) (payload : Payload)
  | configureSurface (width height : Nat)
  | setPipeline (p : RenderPipeline)
  | setBindGroup (index : Nat)
  | draw (vertices instances : Nat)
  | submit
  | present
  | requestRedraw
deriving DecidableEq, Repr

/-- The mutable render state (`AppState`), restricted to the fields the
    frame-loop claims observe. -/
structure AppState where
  configWidth : Nat
  configHeight : Nat
  renderPipeline : RenderPipeline
  /-- `time: Instant` — start of the render clock, an abstract time point. -/
  time : Nat
  alignment : Nat
  bindings : Bindings
  fallback_shader : ShaderModule
  device : Device
deriving Repr

/-- `AppState::resize` (src/main.rs lines 334-349): clamp the surface
    configuration to at least 1 in each dimension, reconfigure, then write
    the resolution uniform from the *unclamped* event size (`size.into()`). -/
def resize (s : AppState) (width height : Nat) : AppState × List Effect :=
  let s1 := { s with configWidth := max width 1, configHeight := max height 1 }
  (s1,
   [ Effect.configureSurface (max width 1) (max height 1),
     Effect.writeBuffer s.alignment 8 (Payload.resolution width height) ])

/-- `AppState::update` (src/main.rs lines 351-369).  `pending` is the result
    of the non-blocking `try_recv` poll; `captured` is the backend verdict
    for the rebuild's error scope; `now` is the current instant.  On a
    pending source: reset the clock to now, rebuild the pipeline with the
    source as candidate.  Always: write elapsed seconds at offset 0. -/
def update (s : AppState) (pending : Option String) (captured : Bool)
    (now : Nat) : AppState × List Effect :=
  let s1 :=
    match pending with
    | some src =>
        let r := create_pipeline s.device s.fallback_shader (some src) captured
        { s with time := now, renderPipeline := r.pipeline, device := r.device }
    | none => s
  (s1, [Effect.writeBuffer 0 4 (Payload.timeSecs (now - s1.time))])

/-- A per-frame surface acquisition outcome (`surface.get_current_texture`). -/
inductive AcquireResult
  | ok
  | surfaceError (e : String)
deriving DecidableEq, Repr

/-- `AppState::render` (src/main.rs lines 371-406): on acquisition failure
    the `?` operator returns the error before anything is encoded; on
    success one render pass drawing 3 vertices / 1 instance is encoded,
    submitted, presented, and the next redraw is requested. -/
def render (s : AppState) (acq : AcquireResult) : Except String (List Effect) :=
  match acq with
  | AcquireResult.surfaceError e => Except.error e
  | AcquireResult.ok =>
      Except.ok
        [ Effect.setPipeline s.renderPipeline, Effect.setBindGroup 0,
          Effect.draw 3 1, Effect.submit, Effect.present, Effect.requestRedraw ]

/-- Window events relevant to `App::window_event`. -/
inductive WinEvent
  | resized (width height : Nat)
  | closeRequested
  | destroyed
  | redrawRequested
  | ignored
deriving DecidableEq, Repr

/-- One `App::window_event` dispatch (src/main.rs lines 450-467), given the
    frame-environment inputs a redraw consumes.  Returns the new state, the
    effects performed, the logs emitted, and whether the event loop exits. -/
def window_event (s : AppState) (ev : WinEvent) (pending : Option String)
    (captured : Bool) (now : Nat) (acq : AcquireResult) :
    AppState × List Effect × List LogMsg × Bool :=
  match ev with
  | WinEvent.resized w h =>
      let r := resize s w h
      (r.1, r.2, [], false)
  | WinEvent.closeRequested =>
      (s, [], [⟨LogLevel.info, "Closing app"⟩], true)
  | WinEvent.destroyed =>
      (s, [], [⟨LogLevel.info, "Closing app"⟩], true)
  | WinEvent.redrawRequested =>
      let u := update s pending captured now
      match render u.1 acq with
      | Except.error e =>
          (u.1, u.2, [⟨LogLevel.error, "Render error: " ++ e⟩], false)
      | Except.ok effs =>
          (u.1, u.2 ++ effs, [], false)
  | WinEvent.ignored => (s, [], [], false)

/-!
## Concrete sample values used by witnesses
-/

/-- A concrete module standing for the startup-compiled fallback module. -/
def sampleModule : ShaderModule :=
  { source := INITIAL_FRAGMENT_SHADER, id := 0 }

/-- A concrete app state for witness instantiations. -/
def sampleState : AppState :=
  { configWidth := 800
    configHeight := 600
    renderPipeline :=
      { vertexModule := { source := VERTEX_SHADER, id := 1 }
        fragmentModule := sampleModule }
    time := 10
    alignment := 64
    bindings := create_bindings 64
    fallback_shader := sampleModule
    device := { compiled := [INITIAL_FRAGMENT_SHADER, VERTEX_SHADER] } }

/-!
## Claims
-/

/-- C5: for any device-reported alignment `a ≥ 64`, the uniform buffer is
    created with size exactly `2*a`; the bind group wires binding 0 to
    buffer offset 0 and binding 1 to buffer offset `a`; every elapsed-time
    write of `update` is exactly 4 bytes at offset 0; and every resolution
    write of `resize` is exactly 8 bytes at offset `a`. -/
theorem C5_uniform_offsets (a : Nat) (s : AppState) (pending : Option String)
    (captured : Bool) (now w h : Nat) (ha : 64 ≤ a) (hs : s.alignment = a) :
    (create_bindings a).buffer.size = 2 * a
    ∧ (create_bindings a).groupEntries =
        [ { binding := 0, offset := 0 }, { binding := 1, offset := a } ]
    ∧ (update s pending captured now).2 =
        [Effect.writeBuffer 0 4
          (Payload.timeSecs (now - (update s pending captured now).1.time))]
    ∧ (resize s w h).2 =
        [ Effect.configureSurface (max w 1) (max h 1),
          Effect.writeBuffer a 8 (Payload.resolution w h) ] := by
  refine ⟨by simp [create_bindings, Nat.mul_comm], by simp [create_bindings], ?_, ?_⟩
  · cases pending <;> simp [update]
  · simp [resize, hs]

/-- Witness for C5 at alignment 64 and a concrete state. -/
theorem C5_uniform_offsets_witness :
    (create_bindings 64).buffer.size = 2 * 64
    ∧ (resize sampleState 800 600).2 =
        [ Effect.configureSurface (max 800 1) (max 600 1),
          Effect.writeBuffer 64 8 (Payload.resolution 800 600) ] :=
  ⟨(C5_uniform_offsets 64 sampleState none false 12 800 600 (by decide) rfl).1,
   (C5_uniform_offsets 64 sampleState none false 12 800 600 (by decide) rfl).2.2.2⟩

/-- C7: on every `Resized(width, height)` notification, both dimensions are
    clamped to a minimum of 1 in the surface configuration, the surface is
    reconfigured, and the new resolution uniform is written; no pipeline
    rebuild occurs — the render pipeline, render clock, buffer/bind group
    and device are unchanged by a resize. -/
theorem C7_resize_no_rebuild (s : AppState) (w h : Nat) (pending : Option String)
    (captured : Bool) (now : Nat) (acq : AcquireResult) :
    (resize s w h).1.configWidth = max w 1
    ∧ (resize s w h).1.configHeight = max h 1
    ∧ Effect.configureSurface (max w 1) (max h 1) ∈ (resize s w h).2
    ∧ Effect.writeBuffer s.alignment 8 (Payload.resolution w h) ∈ (resize s w h).2
    ∧ (resize s w h).1.renderPipeline = s.renderPipeline
    ∧ (resize s w h).1.time = s.time
    ∧ (resize s w h).1.bindings = s.bindings
    ∧ (resize s w h).1.device = s.device
    ∧ window_event s (WinEvent.resized w h) pending captured now acq
        = ((resize s w h).1, (resize s w h).2, [], false) := by
  refine ⟨rfl, rfl, ?_, ?_, rfl, rfl, rfl, rfl, rfl⟩ <;> simp [resize]

/-- C9: when a `Resized` notification carries a zero dimension, the surface
    configuration receives the clamped value 1 but the resolution uniform is
    written from the unclamped event size: for a resize to `(0, h)` or
    `(w, 0)` the uniform payload contains a 0 component while the configured
    surface dimension is 1. -/
theorem C9_zero_resize_unclamped_uniform (s : AppState) (w h : Nat) :
    ((resize s 0 h).1.configWidth = 1
      ∧ Effect.writeBuffer s.alignment 8 (Payload.resolution 0 h) ∈ (resize s 0 h).2)
    ∧ ((resize s w 0).1.configHeight = 1
      ∧ Effect.writeBuffer s.alignment 8 (Payload.resolution w 0) ∈ (resize s w 0).2) := by
  refine ⟨⟨rfl, ?_⟩, ⟨rfl, ?_⟩⟩ <;> simp [resize]

/-- C8: `render` propagates a per-frame surface-acquisition failure to its
    caller rather than swallowing it, and the `RedrawRequested` arm of
    `window_event` logs it; on that failure path `render` performs no
    externally visible work: the frame's effects are exactly those of
    `update` — no pipeline is bound, nothing is drawn, no command buffer is
    submitted and no image is presented — and the state is the post-`update`
    state, unchanged by `render`. -/
theorem C8_render_error_propagates (s : AppState) (e : String)
    (pending : Option String) (captured : Bool) (now : Nat) :
    render s (AcquireResult.surfaceError e) = Except.error e
    ∧ (window_event s WinEvent.redrawRequested pending captured now
        (AcquireResult.surfaceError e)).1 = (update s pending captured now).1
    ∧ (window_event s WinEvent.redrawRequested pending captured now
        (AcquireResult.surfaceError e)).2.1 = (update s pending captured now).2
    ∧ ⟨LogLevel.error, "Render error: " ++ e⟩ ∈
        (window_event s WinEvent.redrawRequested pending captured now
          (AcquireResult.surfaceError e)).2.2.1
    ∧ (∀ eff ∈ (window_event s WinEvent.redrawRequested pending captured now
          (AcquireResult.surfaceError e)).2.1,
        eff ≠ Effect.submit ∧ eff ≠ Effect.present
        ∧ (∀ v i, eff ≠ Effect.draw v i)
        ∧ (∀ p, eff ≠ Effect.setPipeline p)) := by
  refine ⟨rfl, rfl, rfl, by simp [window_event, render], ?_⟩
  intro eff heff
  have h2 : (window_event s WinEvent.redrawRequested pending captured now
      (AcquireResult.surfaceError e)).2.1 = (update s pending captured now).2 := rfl
  rw [h2] at heff
  cases pending <;> simp [update] at heff <;> simp [heff]

/-- C6: on every `RedrawRequested`, `update` performs one non-blocking poll
    of the watch channel (modelled by the `pending` input); if a new shader
    source is pending it rebuilds the pipeline with that source as candidate
    and resets the render clock to now, otherwise state (pipeline and clock)
    is untouched; in either case it then writes the current elapsed seconds
    into the uniform buffer, measured from the possibly-reset clock. -/
theorem C6_update_reload_and_clock (s : AppState) (pending : Option String)
    (captured : Bool) (now : Nat) :
    (∀ src, pending = some src →
        (update s pending captured now).1.renderPipeline =
            (create_pipeline s.device s.fallback_shader (some src) captured).pipeline
        ∧ (update s pending captured now).1.time = now)
    ∧ (pending = none → (update s pending captured now).1 = s)
    ∧ (update s pending captured now).2 =
        [Effect.writeBuffer 0 4
          (Payload.timeSecs (now - (update s pending captured now).1.time))]
    ∧ (pending = none →
        (update s pending captured now).2 =
          [Effect.writeBuffer 0 4 (Payload.timeSecs (now - s.time))]) := by
  refine ⟨?_, ?_, ?_, ?_⟩
  · rintro src rfl
    exact ⟨rfl, rfl⟩
  · rintro rfl
    rfl
  · cases pending <;> simp [update]
  · rintro rfl
    rfl

/-- Witness for C6: with a pending source the clock is reset to now; with no
    pending source the state is untouched. -/
theorem C6_update_reload_and_clock_witness :
    (update sampleState (some "x") false 42).1.time = 42
    ∧ (update sampleState none false 42).1 = sampleState :=
  ⟨((C6_update_reload_and_clock sampleState (some "x") false 42).1 "x" rfl).2,
   (C6_update_reload_and_clock sampleState none false 42).2.1 rfl⟩

/-- Witness for C8: a concrete failed acquisition is propagated, and the
    frame's only effect (the time write) is not a submit. -/
theorem C8_render_error_propagates_witness :
    render sampleState (AcquireResult.surfaceError "lost") = Except.error "lost"
    ∧ Effect.writeBuffer 0 4 (Payload.timeSecs 0) ≠ Effect.submit :=
  ⟨(C8_render_error_propagates sampleState "lost" none false 0).1,
   ((C8_render_error_propagates sampleState "lost" none false 0).2.2.2.2
      (Effect.writeBuffer 0 4 (Payload.timeSecs 0)) (by decide)).1⟩

/-!
## Watcher trace lemmas
-/

/-- Number of polls in a run on which the last-seen timestamp strictly
    changed (the run stops after a step on which the thread exited, as
    `runWatcher` does). -/
def advances (s : WatcherState) : List Poll → Nat
  | [] => 0
  | p :: ps =>
      (if (watcherStep s p).state.last ≠ s.last then 1 else 0)
      + (if (watcherStep s p).exited then 0 else advances (watcherStep s p).state ps)

/-- One poll enqueues a message exactly when it changes the last-seen
    timestamp. -/
theorem watcherStep_sent_length (s : WatcherState) (p : Poll) :
    (watcherStep s p).sent.toList.length
      = if (watcherStep s p).state.last ≠ s.last then 1 else 0 := by
  rcases p with ⟨meta, content, read, connected, rewindOk⟩
  cases meta with
  | metaErr => simp [watcherStep]
  | modifiedErr => simp [watcherStep]
  | modified t =>
    by_cases h : s.last < t
    · have hne : t ≠ s.last := by omega
      cases read with
      | err n keep => simp [watcherStep, h]
      | ok =>
        cases connected with
        | false => simp [watcherStep, h]
        | true => cases rewindOk <;> simp [watcherStep, h, hne]
    · simp [watcherStep, h]

/-- Over any run, the number of messages enqueued equals the number of
    strict advances of the last-seen timestamp. -/
theorem runWatcher_length_advances (ps : List Poll) (s : WatcherState) :
    (runWatcher s ps).2.1.length = advances s ps := by
  induction ps generalizing s with
  | nil => simp [runWatcher, advances]
  | cons p ps ih =>
    simp only [runWatcher, advances]
    by_cases hex : (watcherStep s p).exited
    · simp [hex, watcherStep_sent_length s p]
    · simp [hex, watcherStep_sent_length s p, ih]

/-- C3: on every watcher poll iteration, a channel send is attempted only
    when the file's modified time is strictly newer than the last-seen
    timestamp; the last-seen timestamp changes only on a successful publish,
    and a successful publish advances it strictly to the observed timestamp;
    a poll whose timestamp is not newer emits nothing, attempts nothing and
    leaves the state unchanged; consequently over any run the watcher
    enqueues exactly one message per strict advance of the timestamp. -/
theorem C3_debounce (s : WatcherState) (p : Poll) (t : Nat) (ps : List Poll) :
    ((watcherStep s p).sendAttempted = true →
        ∃ m, p.meta = MetaResult.modified m ∧ s.last < m)
    ∧ ((watcherStep s p).state.last ≠ s.last → ∃ v, (watcherStep s p).sent = some v)
    ∧ (∀ v, (watcherStep s p).sent = some v →
        p.meta = MetaResult.modified ((watcherStep s p).state.last)
        ∧ s.last < (watcherStep s p).state.last)
    ∧ (p.meta = MetaResult.modified t → ¬ s.last < t →
        (watcherStep s p).sent = none
        ∧ (watcherStep s p).sendAttempted = false
        ∧ (watcherStep s p).state = s)
    ∧ (runWatcher s ps).2.1.length = advances s ps := by
  refine ⟨?_, ?_, ?_, ?_, runWatcher_length_advances ps s⟩
  · rcases p with ⟨meta, content, read, connected, rewindOk⟩
    cases meta with
    | metaErr => simp [watcherStep]
    | modifiedErr => simp [watcherStep]
    | modified m =>
      by_cases h : s.last < m
      · cases read with
        | err n keep => simp [watcherStep, h]
        | ok =>
          intro _
          exact ⟨m, rfl, h⟩
      · simp [watcherStep, h]
  · rcases p with ⟨meta, content, read, connected, rewindOk⟩
    cases meta with
    | metaErr => simp [watcherStep]
    | modifiedErr => simp [watcherStep]
    | modified m =>
      by_cases h : s.last < m
      · cases read with
        | err n keep => simp [watcherStep, h]
        | ok =>
          cases connected with
          | false => simp [watcherStep, h]
          | true => cases rewindOk <;> simp [watcherStep, h]
      · simp [watcherStep, h]
  · rcases p with ⟨meta, content, read, connected, rewindOk⟩
    cases meta with
    | metaErr => simp [watcherStep]
    | modifiedErr => simp [watcherStep]
    | modified m =>
      by_cases h : s.last < m
      · cases read with
        | err n keep => simp [watcherStep, h]
        | ok =>
          cases connected with
          | false => simp [watcherStep, h]
          | true => cases rewindOk <;> simp [watcherStep, h]
      · simp [watcherStep, h]
  · intro heq hle
    rcases p with ⟨meta, content, read, connected, rewindOk⟩
    cases heq
    simp [watcherStep, hle]

/-- Witness for C3: a poll whose timestamp equals the last-seen value emits
    nothing and leaves the watcher state unchanged. -/
theorem C3_debounce_witness :
    (watcherStep { last := 5, buf := "", pos := 0 }
        { meta := MetaResult.modified 5, content := "a", read := ReadResult.ok,
          connected := true, rewindOk := true }).sent = none :=
  ((C3_debounce { last := 5, buf := "", pos := 0 }
      { meta := MetaResult.modified 5, content := "a", read := ReadResult.ok,
        connected := true, rewindOk := true } 5 []).2.2.2.1 rfl (by decide)).1

/-- A poll on which the `f.metadata()` call itself fails. -/
def pollMetaErr : Poll :=
  { meta := MetaResult.metaErr, content := "", read := ReadResult.ok,
    connected := true, rewindOk := true }

/-- C2 counterexample: a metadata-retrieval failure (an `Err` from
    `f.metadata()` itself) makes the thread closure return through the `?`
    operator: the poll terminates the watcher thread, without even a log —
    refuting, at this concrete input, that every failure after the file is
    opened is logged and leaves the polling loop running. -/
theorem C2_metadata_error_exits :
    (watcherStep watcherStart pollMetaErr).exited = true
    ∧ (watcherStep watcherStart pollMetaErr).logs = [] := by
  decide

/-- C2 (amended): after the file is opened, a failure of the `modified()`
    accessor is logged and the loop continues after sleeping 1000 ms; a file
    read failure is logged and the loop continues; a channel send failure
    when the consumer is gone is logged and the loop continues; but an error
    from the `f.metadata()` call itself, and an error from the post-publish
    `f.rewind()`, propagate through the `?` operator and terminate the
    watcher thread. -/
theorem C2_watcher_failure_handling (s : WatcherState) (p : Poll) :
    (p.meta = MetaResult.modifiedErr →
        (watcherStep s p).exited = false
        ∧ (watcherStep s p).sleepMs = 1000
        ∧ ⟨LogLevel.error, "Failed to get file metadata"⟩ ∈ (watcherStep s p).logs
        ∧ (watcherStep s p).state = s)
    ∧ (∀ t n keep, p.meta = MetaResult.modified t → s.last < t →
        p.read = ReadResult.err n keep →
        (watcherStep s p).exited = false
        ∧ ⟨LogLevel.error, "Failed to read shader file"⟩ ∈ (watcherStep s p).logs
        ∧ (watcherStep s p).sleepMs = 500)
    ∧ (∀ t, p.meta = MetaResult.modified t → s.last < t → p.read = ReadResult.ok →
        p.connected = false →
        (watcherStep s p).exited = false
        ∧ ⟨LogLevel.warn, "Failed to send shader source, channel disconnected"⟩
            ∈ (watcherStep s p).logs
        ∧ (watcherStep s p).state.last = s.last)
    ∧ (p.meta = MetaResult.metaErr →
        (watcherStep s p).exited = true ∧ (watcherStep s p).logs = [])
    ∧ (∀ t, p.meta = MetaResult.modified t → s.last < t → p.read = ReadResult.ok →
        p.connected = true → p.rewindOk = false →
        (watcherStep s p).exited = true) := by
  rcases p with ⟨meta, content, read, connected, rewindOk⟩
  refine ⟨?_, ?_, ?_, ?_, ?_⟩
  · rintro rfl
    simp [watcherStep]
  · rintro t n keep rfl h rfl
    simp [watcherStep, h]
  · rintro t rfl h rfl rfl
    simp [watcherStep, h]
  · rintro rfl
    simp [watcherStep]
  · rintro t rfl h rfl rfl rfl
    simp [watcherStep, h]

/-- Witness for C2 (amended): at a concrete state and poll, a `modified()`
    failure leaves the loop running after a 1000 ms sleep. -/
theorem C2_watcher_failure_handling_witness :
    (watcherStep watcherStart
        { meta := MetaResult.modifiedErr, content := "", read := ReadResult.ok,
          connected := true, rewindOk := true }).exited = false :=
  ((C2_watcher_failure_handling watcherStart
      { meta := MetaResult.modifiedErr, content := "", read := ReadResult.ok,
        connected := true, rewindOk := true }).1 rfl).1

/-- The first poll after the file opens, in the benign environment: a real
    (post-epoch) modification time, a successful full read, a live consumer. -/
def firstPoll (t : Nat) (content : String) : Poll :=
  { meta := MetaResult.modified t, content := content, read := ReadResult.ok,
    connected := true, rewindOk := true }

/-- A successful read from the start of the file yields the whole content. -/
theorem readRest_zero (c : String) : readRest c 0 = c := by
  cases c
  simp [readRest, String.toList, List.asString]

/-- C10: the watcher starts with its last-seen timestamp at the UNIX epoch,
    so the first successful metadata poll of a file whose modification time
    is post-epoch always treats the file as modified and publishes its
    current content, advancing the timestamp; a second poll observing the
    same timestamp publishes nothing more. -/
theorem C10_first_poll_publishes (t : Nat) (content : String) (ht : 0 < t) :
    watcherStart.last = 0
    ∧ (watcherStep watcherStart (firstPoll t content)).sent = some content
    ∧ (watcherStep watcherStart (firstPoll t content)).state.last = t
    ∧ (watcherStep watcherStart (firstPoll t content)).exited = false
    ∧ (watcherStep (watcherStep watcherStart (firstPoll t content)).state
        (firstPoll t content)).sent = none := by
  refine ⟨rfl, ?_, ?_, ?_, ?_⟩ <;>
    simp [watcherStart, watcherStep, firstPoll, ht, readRest_zero]

/-- Witness for C10: a concrete file, modified at time 1, is published on
    the very first poll. -/
theorem C10_first_poll_publishes_witness :
    (watcherStep watcherStart (firstPoll 1 "shader text")).sent
      = some "shader text" :=
  (C10_first_poll_publishes 1 "shader text" (by decide)).2.1

/-- A first poll on which the read fails with an invalid-UTF-8-style error:
    the cursor is consumed to end-of-file, the buffer keeps nothing. -/
def c4poll1 : Poll :=
  { meta := MetaResult.modified 1, content := "AB",
    read := ReadResult.err 2 false, connected := true, rewindOk := true }

/-- The retry poll after `c4poll1`: the file now reads `"ABC"` with a newer
    modification time, and everything succeeds. -/
def c4poll2 : Poll :=
  { meta := MetaResult.modified 2, content := "ABC",
    read := ReadResult.ok, connected := true, rewindOk := true }

/-- C4: after a failed read the code neither rewinds the file handle nor
    resets the buffer, so the next successful read does not start from the
    beginning of the file: on this run the watcher publishes `"C"` although
    the file's full content on that poll is `"ABC"`.  (Evaluation of the
    embedded watcher at the failing input.) -/
theorem C4_stale_cursor_publish :
    (watcherStep watcherStart c4poll1).state.pos = 2
    ∧ (runWatcher watcherStart [c4poll1, c4poll2]).2.1 = ["C"]
    ∧ c4poll2.content = "ABC"
    ∧ ("C" : String) ≠ "ABC" := by
  decide

/-!
## Pipeline-builder lemmas
-/

/-- The two compiled-in shader texts differ. -/
theorem vertex_ne_fallback : VERTEX_SHADER ≠ INITIAL_FRAGMENT_SHADER := by
  decide

/-- One `create_pipeline` call compiles exactly the vertex shader and, when
    present, the candidate — never the fallback. -/
theorem create_pipeline_compiled (d : Device) (fb : ShaderModule)
    (src : Option String) (captured : Bool) :
    (create_pipeline d fb src captured).device.compiled
      = d.compiled ++ [VERTEX_SHADER] ++ src.toList := by
  cases src <;> cases captured <;> simp [create_pipeline, createShaderModule]

/-- A builder call whose candidate is not the fallback text does not change
    the number of fallback-text compilations recorded on the device. -/
theorem create_pipeline_count (d : Device) (fb : ShaderModule)
    (src : Option String) (captured : Bool)
    (hsrc : src ≠ some INITIAL_FRAGMENT_SHADER) :
    ((create_pipeline d fb src captured).device.compiled).count INITIAL_FRAGMENT_SHADER
      = d.compiled.count INITIAL_FRAGMENT_SHADER := by
  rw [create_pipeline_compiled]
  rcases src with _ | s
  · simp [List.count_append, List.count_cons, List.count_nil, beq_iff_eq,
      Ne.symm vertex_ne_fallback]
  · have hs : s ≠ INITIAL_FRAGMENT_SHADER := fun h => hsrc (by rw [h])
    simp [List.count_append, List.count_cons, List.count_nil, beq_iff_eq,
      Ne.symm vertex_ne_fallback, Ne.symm hs]

/-- Across any sequence of builder calls whose candidates are not the
    fallback text, the device's count of fallback-text compilations is
    unchanged. -/
theorem runPipelineCalls_count (fb : ShaderModule)
    (calls : List (Option String × Bool)) (d : Device)
    (hcalls : ∀ c ∈ calls, c.1 ≠ some INITIAL_FRAGMENT_SHADER) :
    (runPipelineCalls fb d calls).compiled.count INITIAL_FRAGMENT_SHADER
      = d.compiled.count INITIAL_FRAGMENT_SHADER := by
  induction calls generalizing d with
  | nil => rfl
  | cons c cs ih =>
    rw [runPipelineCalls]
    rw [ih _ (fun x hx => hcalls x (List.mem_cons_of_mem c hx))]
    exact create_pipeline_count d fb c.1 c.2 (hcalls c (List.mem_cons_self c cs))

/-- C1: every `create_pipeline` call returns a usable pipeline — linked
    against the candidate module or the fallback module — and never fails
    outwardly; whenever the error scope captured a validation error or no
    candidate was supplied, the returned pipeline is linked against the very
    fallback module compiled at startup (a clone, not a recompilation) and a
    user-visible warning/error is logged; the call itself compiles only the
    vertex shader and the candidate; the fallback text is compiled exactly
    once at startup and that count is unchanged by any later sequence of
    builder calls (whose candidates are not literally the fallback text). -/
theorem C1_pipeline_never_fails (d : Device) (fb : ShaderModule)
    (src : Option String) (captured : Bool)
    (calls : List (Option String × Bool))
    (hcalls : ∀ c ∈ calls, c.1 ≠ some INITIAL_FRAGMENT_SHADER) :
    ((create_pipeline d fb src captured).pipeline.fragmentModule = fb
      ∨ ∃ s, src = some s
          ∧ (create_pipeline d fb src captured).pipeline.fragmentModule.source = s)
    ∧ (captured = true ∨ src = none →
        (create_pipeline d fb src captured).pipeline.fragmentModule = fb
        ∧ ∃ l ∈ (create_pipeline d fb src captured).logs,
            l.level = LogLevel.warn ∨ l.level = LogLevel.error)
    ∧ (create_pipeline d fb src captured).device.compiled
        = d.compiled ++ [VERTEX_SHADER] ++ src.toList
    ∧ (startupFallback d).2.compiled.count INITIAL_FRAGMENT_SHADER
        = d.compiled.count INITIAL_FRAGMENT_SHADER + 1
    ∧ (runPipelineCalls fb (startupFallback d).2 calls).compiled.count
          INITIAL_FRAGMENT_SHADER
        = d.compiled.count INITIAL_FRAGMENT_SHADER + 1 := by
  have hstartup : (startupFallback d).2.compiled.count INITIAL_FRAGMENT_SHADER
      = d.compiled.count INITIAL_FRAGMENT_SHADER + 1 := by
    simp [startupFallback, createShaderModule, List.count_append]
  refine ⟨?_, ?_, create_pipeline_compiled d fb src captured, hstartup, ?_⟩
  · rcases src with _ | s
    · left
      cases captured <;> rfl
    · cases captured with
      | true => left; rfl
      | false => right; exact ⟨s, rfl, rfl⟩
  · intro h
    rcases src with _ | s
    · cases captured with
      | false =>
        exact ⟨rfl, ⟨LogLevel.warn, "Using initial fragment shader"⟩,
               by simp [create_pipeline], Or.inl rfl⟩
      | true =>
        exact ⟨rfl, ⟨LogLevel.warn, "Using initial fragment shader"⟩,
               by simp [create_pipeline], Or.inl rfl⟩
    · rcases h with h | h
      · subst h
        exact ⟨rfl, ⟨LogLevel.error, "Fragment shader module creation failed"⟩,
               by simp [create_pipeline], Or.inr rfl⟩
      · exact absurd h (by simp)
  · rw [runPipelineCalls_count fb calls _ hcalls]
    exact hstartup

/-- Witness for C1: with an invalid candidate the returned pipeline is
    linked against the startup fallback module, and after one further
    builder call the fallback text has still been compiled exactly once. -/
theorem C1_pipeline_never_fails_witness :
    (create_pipeline ⟨[]⟩ sampleModule (some "bad") true).pipeline.fragmentModule
      = sampleModule
    ∧ (runPipelineCalls sampleModule (startupFallback ⟨[]⟩).2
          [(some "candidate", false)]).compiled.count INITIAL_FRAGMENT_SHADER
        = (Device.mk []).compiled.count INITIAL_FRAGMENT_SHADER + 1 :=
  ⟨((C1_pipeline_never_fails ⟨[]⟩ sampleModule (some "bad") true
      [(some "candidate", false)] (by decide)).2.1 (Or.inl rfl)).1,
   (C1_pipeline_never_fails ⟨[]⟩ sampleModule (some "bad") true
      [(some "candidate", false)] (by decide)).2.2.2.2⟩

end Shadertoy
